import Mathlib

/-!
Shallow embedding of `src/train/train.py` (NLP-Transformers training loop).

Token ids are `ℕ`, logits are `ℚ` (exact stand-in for the real-valued
scores; the pointwise cross-entropy term is kept abstract as a parameter
`ℓ`, since its value is transcendental, while the masking/averaging
structure of `nn.CrossEntropyLoss(ignore_index=..)` is modelled exactly).
Tensors are lists of lists; the stateful per-batch block of
`training_loop` is modelled as an explicit state-passing step function.
-/

namespace TrainPy

/-- `is_main_process` from `train.py` lines 34-35:
`(rank == -1 and world_size == -1) or (rank == 0 and world_size > 0)`. -/
def is_main_process (rank world_size : ℤ) : Bool :=
  (rank == -1 && world_size == -1) || (rank == 0 && world_size > 0)

/-- The constructor arguments `prepare_dataloader` (lines 38-53) passes to
`CornellMovieDataset`. -/
structure CornellMovieDatasetArgs where
  max_context_length : ℕ
  max_sentence_length : ℕ
  deriving DecidableEq

/-- Length-cap derivation in `prepare_dataloader` (lines 46-53):
`max_sentence_len = max_seq_len // 4`, `max_passage_len = max_seq_len`,
then `CornellMovieDataset(max_context_length=max_passage_len,
max_sentence_length=max_sentence_len, ...)`. -/
def prepare_dataloader (max_seq_len : ℕ) : CornellMovieDatasetArgs :=
  let max_sentence_len := max_seq_len / 4
  let max_passage_len := max_seq_len
  { max_context_length := max_passage_len, max_sentence_length := max_sentence_len }

/-- Device resolution in `training_loop` line 100:
`device = T.device(f"cuda:{rank}" if rank != -1 else device)`. -/
def resolveDevice (rank : ℤ) (device : String) : String :=
  if rank != -1 then "cuda:" ++ toString rank else device

/-- Whether `prepare_network` (lines 64-74) calls `setup_distributed`,
i.e. whether a process group is ever initialized:
`if rank != -1 and world_size != -1`. -/
def processGroupSetupInvoked (rank world_size : ℤ) : Bool :=
  rank != -1 && world_size != -1

/-- One of the optimizer-related side effects performed per batch
inside `training_loop` (lines 176-184). -/
inductive TrainOp where
  | scalerScaleBackward
  | scalerStepOptimizer
  | scalerUpdate
  | lossBackward
  | optimizerStep
  | zeroGrad
  deriving DecidableEq

/-- Backward/step side-effect trace of `training_loop` lines 176-184:
`if device.type == "cuda": scaler.scale(loss).backward();
scaler.step(optimizer); scaler.update() else: loss.backward();
optimizer.step()` followed unconditionally by `optimizer.zero_grad()`. -/
def backwardOps (isCuda : Bool) : List TrainOp :=
  (if isCuda then
    [TrainOp.scalerScaleBackward, TrainOp.scalerStepOptimizer, TrainOp.scalerUpdate]
  else
    [TrainOp.lossBackward, TrainOp.optimizerStep]) ++ [TrainOp.zeroGrad]

/-- One `(prompts, labels)` pair yielded by the dataloader: a batch of
prompt token-id rows and label token-id rows. -/
structure Batch where
  prompts : List (List ℕ)
  labels : List (List ℕ)

/-- `labels[:, :-1]` (line 157). -/
def labelsInput (labels : List (List ℕ)) : List (List ℕ) :=
  labels.map List.dropLast

/-- `labels[:, 1:]` (line 158). -/
def labelsExpected (labels : List (List ℕ)) : List (List ℕ) :=
  labels.map (List.drop 1)

/-- `T.argmax` along the last dimension: index of the (first) maximal
entry of a logits row. -/
def argmaxIdx (row : List ℚ) : ℕ :=
  (row.enum.foldl (fun best p => if p.2 > best.2 then p else best)
    (0, row.headD 0)).1

/-- `T.sum(T.argmax(y, dim=-1) == labels_expected)` over flattened
positions (line 188): padding positions are NOT excluded. -/
def countCorrect (y : List (List ℚ)) (expected : List ℕ) : ℕ :=
  (y.zip expected).countP (fun p => argmaxIdx p.1 == p.2)

/-- `nn.CrossEntropyLoss(ignore_index=pad)` with the default mean
reduction, applied to flattened logits and targets (lines 129, 169-172):
positions whose target equals `ignore_index` are dropped, and the
remaining pointwise losses are averaged.  The pointwise cross-entropy
term is the abstract parameter `ℓ` (its exact value is transcendental);
the masking and averaging are modelled exactly. -/
def CrossEntropyLoss (ℓ : List ℚ → ℕ → ℚ) (ignore_index : ℕ)
    (input : List (List ℚ)) (target : List ℕ) : ℚ :=
  let kept := (input.zip target).filter (fun p => p.2 != ignore_index)
  (kept.map (fun p => ℓ p.1 p.2)).sum / kept.length

/-- Mutable state threaded through the batch loop of `training_loop`:
per-epoch metric accumulators (lines 146-148, 174, 188-189), the number
of `scheduler.step()` calls (line 186), the checkpoint saves performed
(lines 191-195, recorded as `(epoch, batch_idx)`), the optimizer-side
effect trace (lines 176-184) and the informational log lines actually
emitted (the logger is set to CRITICAL on non-main ranks, lines 77-83). -/
structure LoopState where
  totalLoss : ℚ
  numCorrect : ℕ
  numTotal : ℕ
  schedulerSteps : ℕ
  saves : List (String × ℕ × ℕ)
  ops : List TrainOp
  logs : List String

/-- The state at the start of an epoch with a fresh scheduler
(lines 146-148). -/
def initLoopState : LoopState :=
  ⟨0, 0, 0, 0, [], [], []⟩

/-- The body of the batch loop of `training_loop` (lines 150-195) as a
state transformer.  `network` abstracts the external model call of line
167 (mapping `prompts` and `labels_input` to per-token logits of shape
batch × decoder length × vocab); `ℓ` abstracts the pointwise
cross-entropy term; everything else follows the source line by line. -/
def processBatch (pad : ℕ) (ℓ : List ℚ → ℕ → ℚ)
    (network : List (List ℕ) → List (List ℕ) → List (List (List ℚ)))
    (checkpoint_interval : ℕ) (isCuda : Bool) (rank world_size : ℤ)
    (model_name : String) (epoch batch_idx : ℕ) (st : LoopState) (b : Batch) :
    LoopState :=
  let li := labelsInput b.labels
  let le := labelsExpected b.labels
  let y := network b.prompts li
  let loss := CrossEntropyLoss ℓ pad y.flatten le.flatten
  { totalLoss := st.totalLoss + loss
    numCorrect := st.numCorrect + countCorrect y.flatten le.flatten
    numTotal := st.numTotal + b.prompts.length * (b.prompts.headD []).length
    schedulerSteps := st.schedulerSteps + 1
    ops := st.ops ++ backwardOps isCuda
    saves :=
      if batch_idx % checkpoint_interval == 0 then
        st.saves ++ [(model_name, epoch, batch_idx)]
      else st.saves
    logs :=
      st.logs ++
        (if batch_idx % checkpoint_interval == 0 && is_main_process rank world_size
         then ["Saving checkpoint..."] else []) }

/-- `for batch_idx, (prompts, labels) in enumerate(dataloader)` starting
at index `i`: fold `processBatch` over the remaining batches. -/
def runBatchesFrom (pad : ℕ) (ℓ : List ℚ → ℕ → ℚ)
    (network : List (List ℕ) → List (List ℕ) → List (List (List ℚ)))
    (checkpoint_interval : ℕ) (isCuda : Bool) (rank world_size : ℤ)
    (model_name : String) (epoch : ℕ) (i : ℕ) (st : LoopState) :
    List Batch → LoopState
  | [] => st
  | b :: bs =>
      runBatchesFrom pad ℓ network checkpoint_interval isCuda rank world_size
        model_name epoch (i + 1)
        (processBatch pad ℓ network checkpoint_interval isCuda rank world_size
          model_name epoch i st b) bs

/-- One epoch's batch loop: enumerate from batch index 0. -/
def runEpochBatches (pad : ℕ) (ℓ : List ℚ → ℕ → ℚ)
    (network : List (List ℕ) → List (List ℕ) → List (List (List ℚ)))
    (checkpoint_interval : ℕ) (isCuda : Bool) (rank world_size : ℤ)
    (model_name : String) (epoch : ℕ) (st : LoopState) (batches : List Batch) :
    LoopState :=
  runBatchesFrom pad ℓ network checkpoint_interval isCuda rank world_size
    model_name epoch 0 st batches

/-- The five-field checkpoint dict saved/loaded by `ModelLoader`
(lines 135-140): network, optimizer, scheduler and scaler state blobs
(opaque external types) plus the completed-epoch counter. -/
structure Checkpoint (α β γ δ : Type) where
  network : α
  optimizer : β
  scheduler : γ
  scaler : δ
  epochs : ℕ

/-- The restored (or fresh) training state entering the epoch loop. -/
structure RestoredState (α β γ δ : Type) where
  network : α
  optimizer : β
  scheduler : γ
  scaler : δ
  starting_epochs : ℕ

/-- Checkpoint restore branch of `training_loop` (lines 133-143): if a
checkpoint exists, load all five sub-states from it; otherwise keep the
freshly constructed ones and set `starting_epochs = 0`. -/
def initTrainingState {α β γ δ : Type} (freshNet : α) (freshOpt : β)
    (freshSched : γ) (freshScaler : δ) :
    Option (Checkpoint α β γ δ) → RestoredState α β γ δ
  | some x => ⟨x.network, x.optimizer, x.scheduler, x.scaler, x.epochs⟩
  | none => ⟨freshNet, freshOpt, freshSched, freshScaler, 0⟩

/-- The epoch iteration of line 145:
`range(starting_epochs + 1, starting_epochs + epochs + 1)`. -/
def epochRange (starting_epochs epochs : ℕ) : List ℕ :=
  List.range' (starting_epochs + 1) epochs

/-- Side effects performed after the epoch loop (lines 202-204). -/
inductive FinalOp where
  | saveModel
  | destroyProcessGroup
  deriving DecidableEq

/-- Lines 202-204 of `training_loop`: `model_loader.save_model(network)`
then `cleanup_distibuted()`, with no condition on `rank`/`world_size`. -/
def trainingLoopFinalOps (rank world_size : ℤ) : List FinalOp :=
  [FinalOp.saveModel, FinalOp.destroyProcessGroup]

/-- Hand-constructed logits for the C1 batch: batch 1, decoder length 3,
vocabulary size 8.  Position 0 argmaxes to token 5 (correct), position 1
argmaxes to token 0 = PAD (the padding position), position 2 argmaxes to
token 2 (incorrect, expected 7). -/
def c1Network : List (List ℕ) → List (List ℕ) → List (List (List ℚ)) :=
  fun _ _ =>
    [[[0, 0, 0, 0, 0, 10, 0, 0],
      [10, 0, 0, 0, 0, 0, 0, 0],
      [0, 0, 10, 0, 0, 0, 0, 0]]]

/-- Hand-constructed C1 batch: one prompt row of 3 tokens and one label
row `[3, 5, 0, 7]`, so `labels_expected = [5, 0, 7]` with one padding
position (PAD = 0) at decoder position 1. -/
def c1Batch : Batch :=
  ⟨[[9, 9, 9]], [[3, 5, 0, 7]]⟩

/-- The loop state after processing the C1 batch from fresh accumulators
(single-process mode, cpu device, checkpoint interval 100, epoch 1,
batch index 0), with pointwise cross-entropy term `ℓ`. -/
def c1State (ℓ : List ℚ → ℕ → ℚ) : LoopState :=
  processBatch 0 ℓ c1Network 100 false (-1) (-1) "chat_model" 1 0
    initLoopState c1Batch

end TrainPy

open TrainPy

/-- C4: for all integer pairs `(rank, world_size)`, `is_main_process` returns
true iff `(rank, world_size) = (-1, -1)`, or `rank = 0` with `world_size > 0`,
and false for every other combination. -/
theorem claim_C4_is_main_process (rank world_size : ℤ) :
    is_main_process rank world_size = true ↔
      ((rank = -1 ∧ world_size = -1) ∨ (rank = 0 ∧ 0 < world_size)) := by
  simp [is_main_process, Bool.or_eq_true, Bool.and_eq_true, beq_iff_eq,
    decide_eq_true_eq]

/-- Witness for C4: rank 0 of world size 4 is the designated reporter;
rank 1 of world size 4 is not. -/
theorem claim_C4_is_main_process_witness :
    is_main_process 0 4 = true ∧ is_main_process 1 4 = false := by
  constructor
  · exact (claim_C4_is_main_process 0 4).mpr (Or.inr ⟨rfl, by decide⟩)
  · have h : ¬ is_main_process 1 4 = true := by
      intro ht
      rcases (claim_C4_is_main_process 1 4).mp ht with ⟨h1, _⟩ | ⟨h1, _⟩ <;>
        exact absurd h1 (by decide)
    exact Bool.eq_false_iff.mpr h

/-- C7: for any `max_seq_len`, the data pipeline derives
`max_sentence_length = max_seq_len / 4` and `max_passage_length = max_seq_len`
and constructs the dataset with these caps; in particular `max_seq_len = 16`
gives sentence cap 4 and passage cap 16. -/
theorem claim_C7_dataloader_caps (max_seq_len : ℕ) :
    (prepare_dataloader max_seq_len).max_sentence_length = max_seq_len / 4 ∧
    (prepare_dataloader max_seq_len).max_context_length = max_seq_len ∧
    prepare_dataloader 16 = ⟨16, 4⟩ := by
  refine ⟨rfl, rfl, ?_⟩
  decide

/-- C10: whenever `rank ≠ -1`, the training loop uses compute device
`cuda:rank`, overriding the configured device string; the configured string
is honored only when `rank = -1`. -/
theorem claim_C10_device_override (rank : ℤ) (device : String) :
    (rank ≠ -1 → resolveDevice rank device = "cuda:" ++ toString rank) ∧
    (rank = -1 → resolveDevice rank device = device) := by
  constructor
  · intro h
    simp [resolveDevice, h]
  · intro h
    simp [resolveDevice, h]

/-- Witness for C10: at `rank = 3` the device is `cuda:3` regardless of the
configured string, and at `rank = -1` the configured string is used. -/
theorem claim_C10_device_override_witness :
    resolveDevice 3 "cpu" = "cuda:" ++ toString (3 : ℤ) ∧
    resolveDevice (-1) "cpu" = "cpu" :=
  ⟨(claim_C10_device_override 3 "cpu").1 (by decide),
   (claim_C10_device_override (-1) "cpu").2 rfl⟩

/-- The batch loop advances the scheduler exactly once per batch: folding
over `bs` from any state adds `bs.length` scheduler steps. -/
theorem runBatchesFrom_schedulerSteps (pad : ℕ) (ℓ : List ℚ → ℕ → ℚ)
    (network : List (List ℕ) → List (List ℕ) → List (List (List ℚ)))
    (k : ℕ) (cuda : Bool) (r w : ℤ) (m : String) (epoch : ℕ)
    (bs : List Batch) :
    ∀ (i : ℕ) (st : LoopState),
      (runBatchesFrom pad ℓ network k cuda r w m epoch i st bs).schedulerSteps =
        st.schedulerSteps + bs.length := by
  induction bs with
  | nil => intro i st; simp [runBatchesFrom]
  | cons b bs ih =>
      intro i st
      rw [runBatchesFrom, ih]
      simp [processBatch]
      omega

/-- The saves performed by the batch loop starting at batch index `i`:
exactly the indices in `[i, i + bs.length)` that the interval test
`batch_idx % k == 0` accepts, tagged with the destination and epoch. -/
theorem runBatchesFrom_saves (pad : ℕ) (ℓ : List ℚ → ℕ → ℚ)
    (network : List (List ℕ) → List (List ℕ) → List (List (List ℚ)))
    (k : ℕ) (cuda : Bool) (r w : ℤ) (m : String) (epoch : ℕ)
    (bs : List Batch) :
    ∀ (i : ℕ) (st : LoopState),
      (runBatchesFrom pad ℓ network k cuda r w m epoch i st bs).saves =
        st.saves ++
          ((List.range' i bs.length).filter (fun j => j % k == 0)).map
            (fun j => (m, epoch, j)) := by
  induction bs with
  | nil => intro i st; simp [runBatchesFrom]
  | cons b bs ih =>
      intro i st
      rw [runBatchesFrom, ih]
      rw [List.length_cons, List.range'_succ, List.filter_cons]
      by_cases h : i % k == 0
      · simp [processBatch, h]
      · simp [processBatch, h]

/-- C5: the learning-rate scheduler is stepped exactly once per processed
batch — after an epoch over `batches` starting from fresh accumulators the
scheduler has advanced `batches.length` steps, one per batch, not one per
epoch. -/
theorem claim_C5_scheduler_once_per_batch (pad : ℕ) (ℓ : List ℚ → ℕ → ℚ)
    (network : List (List ℕ) → List (List ℕ) → List (List (List ℚ)))
    (k : ℕ) (cuda : Bool) (r w : ℤ) (m : String) (epoch : ℕ)
    (batches : List Batch) (st : LoopState) :
    (runEpochBatches pad ℓ network k cuda r w m epoch st batches).schedulerSteps =
      st.schedulerSteps + batches.length := by
  rw [runEpochBatches, runBatchesFrom_schedulerSteps]

/-- C3: within an epoch, for every checkpoint interval `k > 0`, a
checkpoint save is triggered exactly at the batches whose zero-based index
is a multiple of `k`, and at no other batch index. -/
theorem claim_C3_checkpoint_multiples (pad : ℕ) (ℓ : List ℚ → ℕ → ℚ)
    (network : List (List ℕ) → List (List ℕ) → List (List (List ℚ)))
    (k : ℕ) (hk : 0 < k) (cuda : Bool) (r w : ℤ) (m : String) (epoch : ℕ)
    (batches : List Batch) :
    ∀ (s : String) (e j : ℕ),
      (s, e, j) ∈
          (runEpochBatches pad ℓ network k cuda r w m epoch initLoopState
            batches).saves ↔
        (s = m ∧ e = epoch ∧ j < batches.length ∧ k ∣ j) := by
  intro s e j
  rw [runEpochBatches, runBatchesFrom_saves]
  simp only [initLoopState, List.nil_append, List.mem_map, List.mem_filter,
    List.mem_range'_1, beq_iff_eq, Nat.dvd_iff_mod_eq_zero, Prod.mk.injEq]
  constructor
  · rintro ⟨x, ⟨⟨hx0, hxlen⟩, hxmod⟩, hms, hes, hjs⟩
    subst hms; subst hes; subst hjs
    exact ⟨rfl, rfl, by omega, hxmod⟩
  · rintro ⟨hs, he, hj, hmod⟩
    subst hs; subst he
    exact ⟨j, ⟨⟨Nat.zero_le j, by omega⟩, hmod⟩, rfl, rfl, rfl⟩

/-- Witness for C3: with interval 2 and three batches, a save happens at
batch index 2 (a multiple of 2). -/
theorem claim_C3_checkpoint_multiples_witness :
    ("chat_model", 1, 2) ∈
      (runEpochBatches 0 (fun _ _ => 0) (fun _ _ => []) 2 false (-1) (-1)
        "chat_model" 1 initLoopState [⟨[], []⟩, ⟨[], []⟩, ⟨[], []⟩]).saves :=
  (claim_C3_checkpoint_multiples 0 (fun _ _ => 0) (fun _ _ => []) 2
    (by decide) false (-1) (-1) "chat_model" 1
    [⟨[], []⟩, ⟨[], []⟩, ⟨[], []⟩] "chat_model" 1 2).mpr
    ⟨rfl, rfl, by decide, by decide⟩

/-- C8: the periodic checkpoint save inside the batch loop is not
conditioned on worker rank — two workers that differ only in
`(rank, world_size)` perform exactly the same saves (same batch indices,
same epoch tag, same destination `model_name`), even though their log
output differs. -/
theorem claim_C8_saves_not_rank_gated (pad : ℕ) (ℓ : List ℚ → ℕ → ℚ)
    (network : List (List ℕ) → List (List ℕ) → List (List (List ℚ)))
    (k : ℕ) (cuda : Bool) (r₁ w₁ r₂ w₂ : ℤ) (m : String) (epoch : ℕ)
    (st : LoopState) (batches : List Batch) :
    (runEpochBatches pad ℓ network k cuda r₁ w₁ m epoch st batches).saves =
      (runEpochBatches pad ℓ network k cuda r₂ w₂ m epoch st batches).saves := by
  rw [runEpochBatches, runEpochBatches, runBatchesFrom_saves,
    runBatchesFrom_saves]

/-- C6: on an accelerator device the backward pass goes through the loss
scaler (scaled backward, optimizer step via the scaler, scale update);
otherwise backward and optimizer step run directly without scaling; in
both branches the gradients are cleared (`optimizer.zero_grad()`) as the
final operation, after the step. -/
theorem claim_C6_backward_branches :
    backwardOps true =
      [TrainOp.scalerScaleBackward, TrainOp.scalerStepOptimizer,
        TrainOp.scalerUpdate, TrainOp.zeroGrad] ∧
    backwardOps false =
      [TrainOp.lossBackward, TrainOp.optimizerStep, TrainOp.zeroGrad] ∧
    (∀ isCuda, (backwardOps isCuda).getLast? = some TrainOp.zeroGrad) := by
  refine ⟨rfl, rfl, ?_⟩
  intro isCuda
  cases isCuda <;> rfl

/-- C9: after the epoch loop the training loop saves the final model and
then invokes process-group teardown unconditionally — for every
`(rank, world_size)`, including single-process mode `(-1, -1)` where
`prepare_network` never initialized a process group. -/
theorem claim_C9_unconditional_teardown (rank world_size : ℤ) :
    trainingLoopFinalOps rank world_size =
      [FinalOp.saveModel, FinalOp.destroyProcessGroup] ∧
    FinalOp.destroyProcessGroup ∈ trainingLoopFinalOps rank world_size ∧
    processGroupSetupInvoked (-1) (-1) = false := by
  refine ⟨rfl, ?_, by decide⟩
  simp [trainingLoopFinalOps]

/-- C2: if a checkpoint with epoch `E` exists, the loop restores all five
sub-states from it and iterates exactly epochs `E+1` through `E+N`, never
re-running an epoch `≤ E`; with no checkpoint it iterates epochs `1`
through `N`. -/
theorem claim_C2_resume_semantics {α β γ δ : Type} (freshNet : α)
    (freshOpt : β) (freshSched : γ) (freshScaler : δ)
    (c : Checkpoint α β γ δ) (N : ℕ) :
    initTrainingState freshNet freshOpt freshSched freshScaler (some c) =
      ⟨c.network, c.optimizer, c.scheduler, c.scaler, c.epochs⟩ ∧
    (∀ e : ℕ, e ∈ epochRange c.epochs N ↔ c.epochs + 1 ≤ e ∧ e ≤ c.epochs + N) ∧
    (initTrainingState freshNet freshOpt freshSched freshScaler none =
      ⟨freshNet, freshOpt, freshSched, freshScaler, 0⟩) ∧
    (∀ e : ℕ, e ∈ epochRange 0 N ↔ 1 ≤ e ∧ e ≤ N) := by
  refine ⟨rfl, ?_, rfl, ?_⟩ <;>
    · intro e
      rw [epochRange, List.mem_range'_1]
      omega

/-- Witness for C2: restoring a checkpoint with epoch 5 and running 3 more
epochs restores all five fields, runs epoch 6, and never re-runs epoch 5. -/
theorem claim_C2_resume_semantics_witness :
    initTrainingState (7 : ℕ) (8 : ℕ) (9 : ℕ) (10 : ℕ)
        (some ⟨1, 2, 3, 4, 5⟩) = ⟨1, 2, 3, 4, 5⟩ ∧
    6 ∈ epochRange 5 3 ∧ ¬ 5 ∈ epochRange 5 3 := by
  refine ⟨(claim_C2_resume_semantics 7 8 9 10 ⟨1, 2, 3, 4, 5⟩ 3).1, ?_, ?_⟩
  · exact ((claim_C2_resume_semantics 7 8 9 10 ⟨1, 2, 3, 4, 5⟩ 3).2.1 6).mpr
      (by decide)
  · intro h
    exact absurd
      (((claim_C2_resume_semantics 7 8 9 10 ⟨1, 2, 3, 4, 5⟩ 3).2.1 5).mp h)
      (by decide)

/-- C1: on the hand-constructed batch (batch 1, decoder length 3, PAD = 0,
expected labels `[5, 0, 7]` with the padding position at index 1), the
loss accumulator averages the pointwise losses of exactly the two
non-padding positions, while the correct-token counter counts the padding
position (whose argmax equals PAD) along with every other position, giving
2 correct; the accuracy denominator is the batch's token count
`1 × 3 = 3`. -/
theorem claim_C1_loss_accuracy (ℓ : List ℚ → ℕ → ℚ) :
    (c1State ℓ).totalLoss =
      (ℓ [0, 0, 0, 0, 0, 10, 0, 0] 5 + ℓ [0, 0, 10, 0, 0, 0, 0, 0] 7) / 2 ∧
    (c1State ℓ).numCorrect = 2 ∧
    (c1State ℓ).numTotal = 1 * 3 := by
  refine ⟨?_, rfl, rfl⟩
  simp [c1State, processBatch, CrossEntropyLoss, c1Network, c1Batch,
    labelsInput, labelsExpected, initLoopState]
